import Mathlib

/-!
Verification of the GraceLens poster editor core: the layer-geometry model,
the pointer-interaction controller (`handleMouseDown` / `handleMouseMove` /
`handleMouseUp` in `components/PosterPreview.tsx`), the keyword-highlight
engine, the text-effect style mapper, and the external-service wrappers
(`services/geminiService.ts`, `services/bibleService.ts`).

Numbers are modelled as rationals (the source uses JS doubles; every
constant involved is exactly representable and no irrational arithmetic
occurs). Strings are Lean `String`s over the same character data.
-/

namespace GraceLens

/-! ## Enumerations (types.ts) -/

inductive AppMode
  | VERSE
  | EVENT
deriving DecidableEq, Repr

inductive TemplateStyle
  | MINIMAL
  | NATURE
  | ABSTRACT
  | GOLDEN
  | GRADIENT
deriving DecidableEq, Repr

inductive LayoutType
  | RIGHT_CORNER
  | LEFT_CORNER
  | BOTTOM_MIDDLE
  | CINEMATIC
deriving DecidableEq, Repr

inductive PosterAspect
  | PORTRAIT
  | SQUARE
  | LANDSCAPE
deriving DecidableEq, Repr

inductive TextEffect
  | NONE
  | SHADOW_SOFT
  | SHADOW_HARD
  | OUTLINE
  | NEON
  | RETRO
  | ELEGANT
  | GLITCH
deriving DecidableEq, Repr

/-! ## Layer model (PosterData in types.ts) -/

structure Vec2 where
  x : ℚ
  y : ℚ
deriving DecidableEq, Repr

structure PosterData where
  mode : AppMode
  verseReference : String
  verseReferenceEnglish : String
  verseText : String
  eventTitle : String
  eventDetails : String
  language : String
  interfaceLanguage : String
  template : TemplateStyle
  layout : LayoutType
  posterAspect : PosterAspect
  backgroundImageUrl : Option String
  uploadedPhotoUrl : Option String
  logoUrl : Option String
  customName : String
  fontFamily : String
  textColor : String
  textEffect : TextEffect
  textPosition : Vec2
  textWidth : ℚ
  textScale : ℚ
  logoPosition : Vec2
  logoWidth : ℚ
  photoPosition : Vec2
  photoWidth : ℚ
deriving DecidableEq, Repr

/-- Layer identifiers: the three draggable elements. -/
inductive LayerId
  | text
  | logo
  | photo
deriving DecidableEq, Repr

/-- The three interaction kinds of `handleMouseDown` in PosterPreview.tsx
(strings 'drag' | 'resize' | 'scale' in the source). -/
inductive DragAction
  | drag
  | resize
  | scale
deriving DecidableEq, Repr

/-- The controller state of PosterPreview.tsx: the five React state cells
`activeDragId`, `dragAction`, `dragStart`, `initialScale`, `initialWidth`.
`activeDragId = none` is the Idle state. -/
structure ControllerState where
  activeDragId : Option LayerId
  dragAction : DragAction
  dragStart : Vec2
  initialScale : ℚ
  initialWidth : ℚ
deriving DecidableEq, Repr

/-- Initial controller state (the useState initialisers in PosterPreview.tsx). -/
def cInit : ControllerState :=
  { activeDragId := none, dragAction := .drag, dragStart := ⟨0, 0⟩
    initialScale := 1, initialWidth := 0 }

/-- `Math.min(a, b)` on (non-NaN) doubles. -/
def jsMin (a b : ℚ) : ℚ := if a ≤ b then a else b

/-- `Math.max(a, b)` on (non-NaN) doubles. -/
def jsMax (a b : ℚ) : ℚ := if a ≤ b then b else a

/-- `Math.max(lo, Math.min(hi, v))` as written throughout handleMouseMove. -/
def clamp (lo hi v : ℚ) : ℚ := jsMax lo (jsMin hi v)

/-- `handleMouseDown` of PosterPreview.tsx: unconditionally starts a session,
recording the pressed layer, action, pointer origin, and — when the action
will resize or scale — the baseline width/scale snapshots. The `|| fallback`
JS expressions read value 0 as absent. -/
def handleMouseDown (data : PosterData) (c : ControllerState)
    (id : LayerId) (action : DragAction) (p : Vec2) : ControllerState :=
  let c1 : ControllerState :=
    { c with activeDragId := some id, dragAction := action, dragStart := p }
  let c2 : ControllerState :=
    if action = .scale ∧ id = .text then
      { c1 with initialScale := if data.textScale = 0 then 1 else data.textScale }
    else c1
  if action = .resize ∨ (action = .scale ∧ id ≠ .text) then
    match id with
    | .text => { c2 with initialWidth := data.textWidth }
    | .logo => { c2 with initialWidth := if data.logoWidth = 0 then 16 else data.logoWidth }
    | .photo => { c2 with initialWidth := if data.photoWidth = 0 then 24 else data.photoWidth }
  else c2

/-- `handleMouseMove` of PosterPreview.tsx, applied to one pointer-move event.
`scale` is the display scale prop, `bw`/`bh` the canvas pixel dimensions
(POSTER_DIMENSIONS of the selected aspect; 400×500 for the default).
Returns the updated poster data (the effect of `onUpdateData`, which merges
the partial update into the document, part_000 `updateData`) together with
the updated controller state (`dragStart` is re-based to the current pointer
for `drag`, and left at the session origin for `resize`/`scale`). -/
def handleMouseMove (scale bw bh : ℚ) (d : PosterData) (c : ControllerState)
    (p : Vec2) : PosterData × ControllerState :=
  match c.activeDragId with
  | none => (d, c)
  | some id =>
    let deltaX := (p.x - c.dragStart.x) / scale
    let deltaY := (p.y - c.dragStart.y) / scale
    let deltaXPercent := deltaX / bw * 100
    let deltaYPercent := deltaY / bh * 100
    let d' : PosterData :=
      match id, c.dragAction with
      | .text, .drag =>
          { d with textPosition :=
              ⟨clamp 0 100 (d.textPosition.x + deltaXPercent),
               clamp 0 100 (d.textPosition.y + deltaYPercent)⟩ }
      | .text, .resize =>
          { d with textWidth := clamp 20 100 (c.initialWidth + deltaXPercent) }
      | .text, .scale =>
          { d with textScale :=
              clamp 0.5 3.0 (c.initialScale + (deltaX + deltaY) * 0.005) }
      | .logo, .drag =>
          { d with logoPosition :=
              ⟨clamp 0 100 ((if d.logoPosition.x = 0 then 10 else d.logoPosition.x) + deltaXPercent),
               clamp 0 100 ((if d.logoPosition.y = 0 then 10 else d.logoPosition.y) + deltaYPercent)⟩ }
      | .logo, _ =>
          { d with logoWidth := clamp 5 60 (c.initialWidth + deltaXPercent) }
      | .photo, .drag =>
          { d with photoPosition :=
              ⟨clamp 0 100 ((if d.photoPosition.x = 0 then 90 else d.photoPosition.x) + deltaXPercent),
               clamp 0 100 ((if d.photoPosition.y = 0 then 10 else d.photoPosition.y) + deltaYPercent)⟩ }
      | .photo, _ =>
          { d with photoWidth := clamp 10 90 (c.initialWidth + deltaXPercent) }
    let c' := if c.dragAction = .drag then { c with dragStart := p } else c
    (d', c')

/-- `handleMouseUp` of PosterPreview.tsx: ends the session. -/
def handleMouseUp (c : ControllerState) : ControllerState :=
  { c with activeDragId := none }

/-- Folding a list of pointer-move events through `handleMouseMove`. -/
def runMoves (scale bw bh : ℚ) (dc : PosterData × ControllerState)
    (ps : List Vec2) : PosterData × ControllerState :=
  ps.foldl (fun dc p => handleMouseMove scale bw bh dc.1 dc.2 p) dc

/-- All geometry bounds of the layer model: positions in [0,100],
textWidth in [20,100], logoWidth in [5,60], photoWidth in [10,90],
textScale in [0.5,3.0]. -/
def inBounds (d : PosterData) : Prop :=
  0 ≤ d.textPosition.x ∧ d.textPosition.x ≤ 100 ∧
  0 ≤ d.textPosition.y ∧ d.textPosition.y ≤ 100 ∧
  0 ≤ d.logoPosition.x ∧ d.logoPosition.x ≤ 100 ∧
  0 ≤ d.logoPosition.y ∧ d.logoPosition.y ≤ 100 ∧
  0 ≤ d.photoPosition.x ∧ d.photoPosition.x ≤ 100 ∧
  0 ≤ d.photoPosition.y ∧ d.photoPosition.y ≤ 100 ∧
  20 ≤ d.textWidth ∧ d.textWidth ≤ 100 ∧
  5 ≤ d.logoWidth ∧ d.logoWidth ≤ 60 ∧
  10 ≤ d.photoWidth ∧ d.photoWidth ≤ 90 ∧
  0.5 ≤ d.textScale ∧ d.textScale ≤ 3.0

instance (d : PosterData) : Decidable (inBounds d) := by
  unfold inBounds; infer_instance

/-- A concrete in-bounds poster document used to instantiate theorems. -/
def samplePoster : PosterData :=
  { mode := .VERSE
    verseReference := "John 3:16"
    verseReferenceEnglish := "John 3:16"
    verseText := "For God so loved the world"
    eventTitle := "Sunday Service"
    eventDetails := "Sunday, 9:00 AM"
    language := "English"
    interfaceLanguage := "en"
    template := .NATURE
    layout := .RIGHT_CORNER
    posterAspect := .PORTRAIT
    backgroundImageUrl := none
    uploadedPhotoUrl := none
    logoUrl := none
    customName := ""
    fontFamily := "Inter"
    textColor := "#FFFFFF"
    textEffect := .SHADOW_SOFT
    textPosition := ⟨50, 50⟩
    textWidth := 80
    textScale := 1
    logoPosition := ⟨10, 10⟩
    logoWidth := 16
    photoPosition := ⟨90, 10⟩
    photoWidth := 24 }

/-! ## Keyword highlight engine (highlightedKeywords useMemo in PosterPreview.tsx) -/

/-- The fixed stop-word set `commonStopWords`. -/
def commonStopWords : List String :=
  ["the", "and", "that", "have", "for", "not", "with", "you", "this", "but",
   "his", "from", "they", "we", "say", "her", "she", "will", "an", "one",
   "would", "there", "their", "what", "so", "up", "out", "if", "about", "who",
   "get", "which", "go", "me", "when", "make", "can", "like", "time", "no",
   "just", "him", "know", "take", "people", "into", "year", "your", "good",
   "some", "could", "them", "see", "other", "than", "then", "now", "look",
   "only", "come", "its", "over", "think", "also", "back", "after", "use",
   "two", "how", "our", "work", "first", "well", "way", "even", "new", "want",
   "because", "any", "these", "give", "day", "most", "us", "are", "is", "was",
   "be", "been", "being"]

/-- The fixed thematic keyword set `christianKeywords`. -/
def christianKeywords : List String :=
  ["god", "jesus", "lord", "christ", "holy", "spirit", "father", "faith",
   "love", "grace", "mercy", "peace", "joy", "hope", "life", "light", "truth",
   "heart", "soul", "pray", "bless", "glory", "saved", "world", "son",
   "heaven", "believe", "eternal", "word", "king", "cross", "blood", "lamb",
   "shepherd"]

/-- The separator class of the tokenizing regex: whitespace and the
punctuation characters comma, period, bang, question mark, semicolon, colon,
double quote, single quote (char code 39), hyphen. -/
def isSepChar (c : Char) : Bool :=
  c.isWhitespace || c == ',' || c == '.' || c == '!' || c == '?' ||
    c == ';' || c == ':' || c == '"' || c == Char.ofNat 39 || c == '-'

/-- Splitting a character list on maximal separator runs. `cur` accumulates
the characters of the token being read (reversed); `inRun` records that the
previously consumed character was a separator and the next token has not
started yet. A separator run at the end of the input contributes a trailing
empty token, and one at the start a leading empty token, matching JS
`String.prototype.split` with a `[...]+` regex. -/
def splitRunsGo (p : Char → Bool) : List Char → List Char → Bool → List (List Char)
  | [], cur, inRun => if inRun then [[]] else [cur.reverse]
  | c :: cs, cur, inRun =>
    if p c then
      if inRun then splitRunsGo p cs [] true
      else cur.reverse :: splitRunsGo p cs [] true
    else splitRunsGo p cs (c :: cur) false

/-- `text.split(/[\s,.!?;:"'-]+/)` of the source. -/
def splitTokens (s : String) : List String :=
  (splitRunsGo isSepChar s.data [] false).map List.asString

/-- True when the token begins with an ASCII uppercase letter: the source
condition `w.length > 0 && w[0] === w[0].toUpperCase() && /^[A-Z]/.test(w)`
(for a first character in A–Z the middle conjunct is automatic; for any
other first character the regex test fails). -/
def startsUpper (w : String) : Bool :=
  match w.data with
  | [] => false
  | c :: _ => decide (Char.ofNat 65 ≤ c) && decide (c ≤ Char.ofNat 90)

/-- A scored candidate word (the objects produced by `words.map`). -/
structure Candidate where
  word : String
  score : Nat
deriving DecidableEq, Repr

/-- `w.toLowerCase()`, character by character. -/
def jsToLower (s : String) : String := (s.data.map Char.toLower).asString

/-- Scoring of one raw token, exactly as in the source `words.map` callback:
tokens shorter than 3 characters score 0; otherwise +20 for thematic-keyword
membership, + length unless a stop word, +5 for an uppercase initial. -/
def scoreWord (w : String) : Candidate :=
  let clean := jsToLower w
  if clean.length < 3 then { word := clean, score := 0 }
  else
    { word := clean
      score :=
        (if christianKeywords.contains clean then 20 else 0) +
        (if commonStopWords.contains clean then 0 else clean.length) +
        (if startsUpper w then 5 else 0) }

/-- Stable insertion of a candidate into a list sorted by descending score:
the candidate goes before the first element whose score is not larger
(equal-scored earlier elements of the original list have already been placed
to its left by `sortByScoreDesc`). This is the behaviour of the stable
`Array.prototype.sort` with comparator `(a, b) => b.score - a.score`. -/
def insertByScoreDesc (c : Candidate) : List Candidate → List Candidate
  | [] => [c]
  | d :: ds => if d.score ≤ c.score then c :: d :: ds else d :: insertByScoreDesc c ds

/-- Stable sort by descending score. -/
def sortByScoreDesc (l : List Candidate) : List Candidate :=
  l.foldr insertByScoreDesc []

/-- The `for (const c of sorted)` loop filling the `topWords` Set: stop as
soon as the set holds 3 words, otherwise add the candidate word (a no-op on
a duplicate). The set is modelled as its insertion-ordered list of distinct
elements. -/
def takeTopWords : List Candidate → List String → List String
  | [], acc => acc
  | c :: cs, acc =>
    if 3 ≤ acc.length then acc
    else if acc.contains c.word then takeTopWords cs acc
    else takeTopWords cs (acc ++ [c.word])

/-- The highlight selection of PosterPreview.tsx (`highlightedKeywords` body,
spec name `selectHighlights`): tokenize, score, keep positive scores, stable
sort descending, take the first 3 distinct lower-cased words. -/
def selectHighlights (text : String) : List String :=
  takeTopWords (sortByScoreDesc (((splitTokens text).map scoreWord).filter
    (fun c => 0 < c.score))) []

/-- The full `highlightedKeywords` memo, including its mode/empty-text guard. -/
def highlightedKeywords (mode : AppMode) (verseText : String) : List String :=
  if mode ≠ .VERSE ∨ verseText = "" then [] else selectHighlights verseText

/-! ## Render/style mapper (getTextEffectStyles and accentStyle) -/

/-- Prefix test over character lists (first argument is the prefix). -/
def listIsPrefix : List Char → List Char → Bool
  | [], _ => true
  | _ :: _, [] => false
  | p :: ps, c :: cs => p == c && listIsPrefix ps cs

/-- `s.startsWith(pre)` of JS strings. -/
def jsStartsWith (s pre : String) : Bool := listIsPrefix pre.data s.data

/-- The CSS properties that the style mapper can set; `none` means the
property is absent from the style object. -/
structure CSSProperties where
  fontFamily : Option String := none
  color : Option String := none
  backgroundImage : Option String := none
  backgroundClip : Option String := none
  webkitBackgroundClip : Option String := none
  webkitTextFillColor : Option String := none
  textShadow : Option String := none
  webkitTextStroke : Option String := none
  opacity : Option ℚ := none
deriving DecidableEq, Repr

/-- `getTextEffectStyles(effect, color)` of PosterPreview.tsx. The source
closure reads `data.fontFamily`; it is passed here as a parameter. -/
def getTextEffectStyles (fontFamily : String) (effect : TextEffect)
    (color : String) : CSSProperties :=
  let base : CSSProperties := { fontFamily := some fontFamily, color := some color }
  let base :=
    if jsStartsWith color "linear-gradient" then
      { base with
        backgroundImage := some color
        backgroundClip := some "text"
        webkitBackgroundClip := some "text"
        webkitTextFillColor := some "transparent"
        color := some "transparent" }
    else base
  match effect with
  | .SHADOW_SOFT => { base with textShadow := some "0 4px 8px rgba(0,0,0,0.5)" }
  | .SHADOW_HARD => { base with textShadow := some "3px 3px 0px rgba(0,0,0,1)" }
  | .OUTLINE =>
      { base with
        webkitTextStroke :=
          some ("1px " ++ (if color = "#000000" then "#ffffff" else "#000000"))
        textShadow := some "none" }
  | .NEON =>
      { base with
        textShadow := some ("0 0 5px #fff, 0 0 10px " ++ color ++ ", 0 0 20px " ++ color) }
  | .RETRO => { base with textShadow := some "2px 2px 0 #d1d5db, 4px 4px 0 #9ca3af" }
  | .ELEGANT =>
      { base with
        textShadow := some "0px 1px 0px rgba(255,255,255,0.4), 0px -1px 0px rgba(0,0,0,0.4)" }
  | .GLITCH =>
      { base with textShadow := some "2px 0 rgba(255,0,0,0.5), -2px 0 rgba(0,0,255,0.5)" }
  | .NONE => base

/-- The `accentStyle` constant of PosterPreview.tsx (the style of the verse
reference line): a gradient text colour falls back to solid white. -/
def accentStyle (fontFamily textColor : String) : CSSProperties :=
  { fontFamily := some fontFamily
    color := some (if jsStartsWith textColor "linear-gradient" then "#ffffff" else textColor)
    opacity := some (9/10)
    textShadow := some "0px 1px 2px rgba(0,0,0,0.5)" }

/-! ## geminiService.ts: translateText -/

/-- The outcome of the external Gemini call inside `translateText`:
either some step threw (missing API key, network or provider error), or a
response arrived whose `.text` field may be absent. -/
inductive ProviderResponse
  | error
  | ok (text : Option String)
deriving DecidableEq, Repr

/-- `String.prototype.trim()`: strip leading and trailing whitespace. -/
def jsTrim (s : String) : String :=
  ((s.data.dropWhile Char.isWhitespace).reverse.dropWhile Char.isWhitespace).reverse.asString

/-- `translateText(text, targetLanguage)` of geminiService.ts as a function
of the provider outcome. An "English" target returns the input before any
provider interaction; a thrown error or an absent/empty response text falls
back to the original input (`response.text?.trim() || text`). -/
def translateText (text targetLanguage : String) (provider : ProviderResponse) : String :=
  if targetLanguage = "English" then text
  else
    match provider with
    | .error => text
    | .ok none => text
    | .ok (some s) => if jsTrim s = "" then text else jsTrim s

/-! ## bibleService.ts: fetchVerse -/

/-- The JSON payload of a successful bible-api.com response (the fields the
source reads). -/
structure ApiVerse where
  reference : String
  text : String
deriving DecidableEq, Repr

/-- The outcome of one `fetch` of a (reference, version) pair: the fetch or
JSON decoding threw, or the HTTP response was not ok, or a payload arrived. -/
inductive FetchOutcome
  | netError
  | notOk
  | success (v : ApiVerse)
deriving DecidableEq, Repr

/-- The `VerseResult` interface of bibleService.ts. -/
structure VerseResult where
  reference : String
  text : String
  translation_id : String
deriving DecidableEq, Repr

/-- `s.toUpperCase()`, character by character. -/
def jsToUpper (s : String) : String := (s.data.map Char.toUpper).asString

/-- The inner `tryFetch` closure of `fetchVerse`: any thrown error or
non-ok response yields null, a payload is repackaged with trimmed text and
upper-cased version id. `api` models the network: it maps a (reference,
version) pair to the outcome of fetching it. -/
def tryFetch (api : String → String → FetchOutcome) (reference v : String) :
    Option VerseResult :=
  match api reference v with
  | .netError => none
  | .notOk => none
  | .success d => some { reference := d.reference, text := jsTrim d.text, translation_id := jsToUpper v }

/-- `fetchVerse(reference, version)` of bibleService.ts: try the requested
version; if that yields null and the requested version is not the default
"web", try "web" once; return whatever the last attempt produced. -/
def fetchVerse (api : String → String → FetchOutcome) (reference version : String) :
    Option VerseResult :=
  match tryFetch api reference version with
  | some r => some r
  | none => if version ≠ "web" then tryFetch api reference "web" else none

end GraceLens

namespace GraceLens

/-- A controller state in the middle of a Move session on the Text layer,
used as a concrete instantiation point. -/
def cDragging : ControllerState :=
  { activeDragId := some .text, dragAction := .drag, dragStart := ⟨1, 2⟩
    initialScale := 1, initialWidth := 80 }

theorem clamp_lo (lo hi v : ℚ) : lo ≤ clamp lo hi v := by
  unfold clamp jsMax jsMin
  split_ifs <;> linarith

theorem clamp_hi (lo hi v : ℚ) (h : lo ≤ hi) : clamp lo hi v ≤ hi := by
  unfold clamp jsMax jsMin
  split_ifs <;> linarith

/-- C1: every single `handleMouseMove` update — any action, any layer, any
raw pixel deltas, any display scale and canvas size, starting from any
in-bounds geometry — leaves all geometry bounds intact: positions in
[0,100] on both axes, textWidth in [20,100], logoWidth in [5,60],
photoWidth in [10,90], textScale in [0.5,3.0]; an out-of-range raw result
is clamped, never rejected (the update is total) or wrapped. -/
theorem geometry_bounds_hold_after_every_update
    (scale bw bh : ℚ) (d : PosterData) (c : ControllerState) (p : Vec2)
    (h : inBounds d) : inBounds (handleMouseMove scale bw bh d c p).1 := by
  obtain ⟨h1, h2, h3, h4, h5, h6, h7, h8, h9, h10,
    h11, h12, h13, h14, h15, h16, h17, h18, h19, h20⟩ := h
  rcases c with ⟨aid, act, st, isc, iw⟩
  rcases aid with _ | id
  · exact ⟨h1, h2, h3, h4, h5, h6, h7, h8, h9, h10,
      h11, h12, h13, h14, h15, h16, h17, h18, h19, h20⟩
  · rcases id <;> rcases act <;> simp only [handleMouseMove, inBounds]
    · exact ⟨clamp_lo _ _ _, clamp_hi _ _ _ (by norm_num),
        clamp_lo _ _ _, clamp_hi _ _ _ (by norm_num),
        h5, h6, h7, h8, h9, h10, h11, h12, h13, h14, h15, h16, h17, h18, h19, h20⟩
    · exact ⟨h1, h2, h3, h4, h5, h6, h7, h8, h9, h10, h11, h12,
        clamp_lo _ _ _, clamp_hi _ _ _ (by norm_num), h15, h16, h17, h18, h19, h20⟩
    · exact ⟨h1, h2, h3, h4, h5, h6, h7, h8, h9, h10, h11, h12, h13, h14,
        h15, h16, h17, h18, clamp_lo _ _ _, clamp_hi _ _ _ (by norm_num)⟩
    · exact ⟨h1, h2, h3, h4, clamp_lo _ _ _, clamp_hi _ _ _ (by norm_num),
        clamp_lo _ _ _, clamp_hi _ _ _ (by norm_num),
        h9, h10, h11, h12, h13, h14, h15, h16, h17, h18, h19, h20⟩
    · exact ⟨h1, h2, h3, h4, h5, h6, h7, h8, h9, h10, h11, h12, h13, h14,
        clamp_lo _ _ _, clamp_hi _ _ _ (by norm_num), h17, h18, h19, h20⟩
    · exact ⟨h1, h2, h3, h4, h5, h6, h7, h8, h9, h10, h11, h12, h13, h14,
        clamp_lo _ _ _, clamp_hi _ _ _ (by norm_num), h17, h18, h19, h20⟩
    · exact ⟨h1, h2, h3, h4, h5, h6, h7, h8,
        clamp_lo _ _ _, clamp_hi _ _ _ (by norm_num),
        clamp_lo _ _ _, clamp_hi _ _ _ (by norm_num),
        h13, h14, h15, h16, h17, h18, h19, h20⟩
    · exact ⟨h1, h2, h3, h4, h5, h6, h7, h8, h9, h10, h11, h12, h13, h14, h15, h16,
        clamp_lo _ _ _, clamp_hi _ _ _ (by norm_num), h19, h20⟩
    · exact ⟨h1, h2, h3, h4, h5, h6, h7, h8, h9, h10, h11, h12, h13, h14, h15, h16,
        clamp_lo _ _ _, clamp_hi _ _ _ (by norm_num), h19, h20⟩

/-- C1 witness: the sample document is in bounds and stays in bounds after a
concrete drag update. -/
theorem geometry_bounds_hold_after_every_update_witness :
    inBounds samplePoster ∧
      inBounds (handleMouseMove 1 400 500 samplePoster cDragging ⟨500, -300⟩).1 :=
  ⟨by norm_num [inBounds, samplePoster],
   geometry_bounds_hold_after_every_update 1 400 500 samplePoster cDragging ⟨500, -300⟩
     (by norm_num [inBounds, samplePoster])⟩

/-- C3: in a ScaleUniform session on the Text layer, one pointer-move event
sets textScale to clamp(baseline + 0.005 × (pixelDeltaX + pixelDeltaY),
0.5, 3.0), where the pixel deltas are the display-scale-corrected
displacement from the session origin (`dragStart`), and the controller
state — in particular the origin — is left unchanged, so the deltas of
every later event are still measured from the session origin. -/
theorem scaleUniform_sets_clamped_baseline_plus_deltas
    (scale bw bh : ℚ) (d : PosterData) (c : ControllerState) (p : Vec2)
    (hid : c.activeDragId = some .text) (hact : c.dragAction = .scale) :
    (handleMouseMove scale bw bh d c p).1.textScale =
      clamp 0.5 3.0 (c.initialScale +
        0.005 * ((p.x - c.dragStart.x) / scale + (p.y - c.dragStart.y) / scale)) ∧
    (handleMouseMove scale bw bh d c p).2 = c := by
  constructor
  · simp only [handleMouseMove, hid, hact]
    ring_nf
  · simp [handleMouseMove, hid, hact]

/-- C3 witness: from textScale = 1.0, a ScaleUniform session whose
display-corrected deltas sum to (100, 100) at display scale 1 yields
textScale = 2.0. -/
theorem scaleUniform_sets_clamped_baseline_plus_deltas_witness :
    (handleMouseMove 1 400 500 samplePoster
      (handleMouseDown samplePoster cInit .text .scale ⟨0, 0⟩) ⟨100, 100⟩).1.textScale = 2 := by
  rw [(scaleUniform_sets_clamped_baseline_plus_deltas 1 400 500 samplePoster
    (handleMouseDown samplePoster cInit .text .scale ⟨0, 0⟩) ⟨100, 100⟩
    (by simp +decide [handleMouseDown])
    (by simp +decide [handleMouseDown])).1]
  simp +decide only [handleMouseDown, samplePoster, cInit]
  norm_num [clamp, jsMax, jsMin]

/-- C5 counterexample: with a Move session active on the Text layer, a
pointer-down on the Photo layer's resize handle is not ignored — it changes
the active layer id, the action, the origin and the captured width baseline. -/
theorem mousedown_while_dragging_is_not_ignored :
    (handleMouseDown samplePoster cDragging .photo .resize ⟨5, 6⟩).activeDragId ≠
        cDragging.activeDragId ∧
      (handleMouseDown samplePoster cDragging .photo .resize ⟨5, 6⟩).dragAction ≠
        cDragging.dragAction ∧
      (handleMouseDown samplePoster cDragging .photo .resize ⟨5, 6⟩).dragStart ≠
        cDragging.dragStart ∧
      (handleMouseDown samplePoster cDragging .photo .resize ⟨5, 6⟩).initialWidth ≠
        cDragging.initialWidth := by
  refine ⟨?_, ?_, ?_, ?_⟩ <;>
    simp +decide [handleMouseDown, cDragging, samplePoster, Vec2.mk.injEq]

/-- C5 amended: `handleMouseDown` never ignores a pointer-down — whatever the
current controller state (Idle or Dragging), it starts a new session for the
pressed layer and action, re-basing the origin to the new pointer position. -/
theorem mousedown_always_starts_new_session
    (d : PosterData) (c : ControllerState) (id : LayerId) (action : DragAction)
    (p : Vec2) :
    (handleMouseDown d c id action p).activeDragId = some id ∧
    (handleMouseDown d c id action p).dragAction = action ∧
    (handleMouseDown d c id action p).dragStart = p := by
  rcases id <;> rcases action <;> simp [handleMouseDown, apply_ite]

/-- C6: for the Logo and Photo layers a ScaleUniform event is extensionally
equal to a ResizeWidth event with the same pointer data: the produced poster
documents coincide, the captured width baselines coincide, and neither
touches textScale (there is no separate scale value for non-text layers). -/
theorem nontext_scale_equals_resize
    (scale bw bh : ℚ) (d : PosterData) (c : ControllerState) (p : Vec2) :
    (handleMouseMove scale bw bh d
        { c with activeDragId := some .logo, dragAction := .scale } p).1 =
      (handleMouseMove scale bw bh d
        { c with activeDragId := some .logo, dragAction := .resize } p).1 ∧
    (handleMouseMove scale bw bh d
        { c with activeDragId := some .photo, dragAction := .scale } p).1 =
      (handleMouseMove scale bw bh d
        { c with activeDragId := some .photo, dragAction := .resize } p).1 ∧
    (handleMouseDown d c .logo .scale p).initialWidth =
      (handleMouseDown d c .logo .resize p).initialWidth ∧
    (handleMouseDown d c .photo .scale p).initialWidth =
      (handleMouseDown d c .photo .resize p).initialWidth ∧
    (handleMouseMove scale bw bh d
        { c with activeDragId := some .logo, dragAction := .scale } p).1.textScale =
      d.textScale ∧
    (handleMouseMove scale bw bh d
        { c with activeDragId := some .photo, dragAction := .scale } p).1.textScale =
      d.textScale := by
  exact ⟨rfl, rfl, rfl, rfl, rfl, rfl⟩

/-- C10: every interaction update is frame-preserving: a Move event changes
only the active layer's position, a ResizeWidth or non-text ScaleUniform
event only its width, a Text ScaleUniform event only textScale; every other
PosterData field (the other layers' geometry and all content fields) is
returned unchanged. -/
theorem interaction_update_is_frame_preserving
    (scale bw bh : ℚ) (d : PosterData) (c : ControllerState) (p : Vec2)
    (id : LayerId) (h : c.activeDragId = some id) :
    (handleMouseMove scale bw bh d c p).1 =
      (match id, c.dragAction with
        | .text, .drag =>
            { d with textPosition := (handleMouseMove scale bw bh d c p).1.textPosition }
        | .text, .resize =>
            { d with textWidth := (handleMouseMove scale bw bh d c p).1.textWidth }
        | .text, .scale =>
            { d with textScale := (handleMouseMove scale bw bh d c p).1.textScale }
        | .logo, .drag =>
            { d with logoPosition := (handleMouseMove scale bw bh d c p).1.logoPosition }
        | .logo, _ =>
            { d with logoWidth := (handleMouseMove scale bw bh d c p).1.logoWidth }
        | .photo, .drag =>
            { d with photoPosition := (handleMouseMove scale bw bh d c p).1.photoPosition }
        | .photo, _ =>
            { d with photoWidth := (handleMouseMove scale bw bh d c p).1.photoWidth }) := by
  rcases hact : c.dragAction <;> rcases id <;> simp [handleMouseMove, h, hact]

theorem runMoves_nil (scale bw bh : ℚ) (dc : PosterData × ControllerState) :
    runMoves scale bw bh dc [] = dc := rfl

theorem runMoves_cons (scale bw bh : ℚ) (dc : PosterData × ControllerState)
    (p : Vec2) (ps : List Vec2) :
    runMoves scale bw bh dc (p :: ps) =
      runMoves scale bw bh (handleMouseMove scale bw bh dc.1 dc.2 p) ps := rfl

/-- One pointer-move event of a ResizeWidth session on the Text layer:
only textWidth changes, computed from the session baseline and the
displacement from the session origin, and the controller state is untouched. -/
theorem resizeText_step (scale bw bh : ℚ) (d : PosterData) (c : ControllerState)
    (p : Vec2) (hid : c.activeDragId = some .text) (hact : c.dragAction = .resize) :
    handleMouseMove scale bw bh d c p =
      ({ d with
          textWidth := clamp 20 100 (c.initialWidth + (p.x - c.dragStart.x) / scale / bw * 100) },
        c) := by
  simp [handleMouseMove, hid, hact]

/-- In a ResizeWidth session on the Text layer, only the last pointer-move
event determines the final width: after any sequence of intermediate events
followed by a final event `q`, textWidth equals the clamped session baseline
plus the percentage x-displacement of `q` from the session origin. -/
theorem runMoves_resizeText (scale bw bh : ℚ) (c : ControllerState)
    (hid : c.activeDragId = some .text) (hact : c.dragAction = .resize) :
    ∀ (ps : List Vec2) (d : PosterData) (q : Vec2),
      runMoves scale bw bh (d, c) (ps ++ [q]) =
        ({ d with
            textWidth := clamp 20 100 (c.initialWidth + (q.x - c.dragStart.x) / scale / bw * 100) },
          c) := by
  intro ps
  induction ps with
  | nil =>
      intro d q
      rw [List.nil_append, runMoves_cons, runMoves_nil]
      exact resizeText_step scale bw bh d c q hid hact
  | cons p ps ih =>
      intro d q
      rw [List.cons_append, runMoves_cons]
      dsimp only
      rw [resizeText_step scale bw bh d c p hid hact]
      rw [ih _ q]

/-- C2: Move updates are incremental while ResizeWidth updates are
baseline-relative. First conjunct: a Move session on the Text layer started
at pointer (0,0) with events (10,0) then (10,10) (display scale 1, canvas
width 400px) advances textPosition.x by exactly 2.5 points in the first
step and 0 in the second, because the pointer reference is re-based after
every event. Second conjunct: a ResizeWidth session on the Text layer
started at pointer (0,0), after any intermediate events `ps` and a final
event (20,0), yields textWidth = baseline + 5, independent of `ps`. -/
theorem move_incremental_resize_baseline
    (d : PosterData) (ps : List Vec2)
    (hx0 : 0 ≤ d.textPosition.x) (hx1 : d.textPosition.x + 5/2 ≤ 100)
    (hw0 : 20 ≤ d.textWidth) (hw1 : d.textWidth + 5 ≤ 100) :
    ((handleMouseMove 1 400 500 d
          (handleMouseDown d cInit .text .drag ⟨0, 0⟩) ⟨10, 0⟩).1.textPosition.x =
        d.textPosition.x + 5/2 ∧
      (handleMouseMove 1 400 500
          (handleMouseMove 1 400 500 d
            (handleMouseDown d cInit .text .drag ⟨0, 0⟩) ⟨10, 0⟩).1
          (handleMouseMove 1 400 500 d
            (handleMouseDown d cInit .text .drag ⟨0, 0⟩) ⟨10, 0⟩).2
          ⟨10, 10⟩).1.textPosition.x =
        d.textPosition.x + 5/2) ∧
    (runMoves 1 400 500 (d, handleMouseDown d cInit .text .resize ⟨0, 0⟩)
        (ps ++ [⟨20, 0⟩])).1.textWidth = d.textWidth + 5 := by
  have hdown : handleMouseDown d cInit .text .resize ⟨0, 0⟩ =
      { activeDragId := some .text, dragAction := .resize, dragStart := ⟨0, 0⟩
        initialScale := 1, initialWidth := d.textWidth } := by
    simp +decide [handleMouseDown, cInit, apply_ite]
  constructor
  · simp +decide only [handleMouseDown, handleMouseMove, cInit]
    norm_num [clamp, jsMax, jsMin]
    split_ifs <;> constructor <;> linarith
  · rw [hdown, runMoves_resizeText _ _ _ _ rfl rfl ps d ⟨20, 0⟩]
    show clamp 20 100 (d.textWidth + (20 - 0) / 1 / 400 * 100) = d.textWidth + 5
    norm_num [clamp, jsMax, jsMin]
    split_ifs <;> linarith

/-- C2 witness: the two sessions at the sample document (textPosition.x = 50,
textWidth = 80), with one intermediate resize event. -/
theorem move_incremental_resize_baseline_witness :
    ((handleMouseMove 1 400 500 samplePoster
          (handleMouseDown samplePoster cInit .text .drag ⟨0, 0⟩) ⟨10, 0⟩).1.textPosition.x =
        samplePoster.textPosition.x + 5/2 ∧
      (handleMouseMove 1 400 500
          (handleMouseMove 1 400 500 samplePoster
            (handleMouseDown samplePoster cInit .text .drag ⟨0, 0⟩) ⟨10, 0⟩).1
          (handleMouseMove 1 400 500 samplePoster
            (handleMouseDown samplePoster cInit .text .drag ⟨0, 0⟩) ⟨10, 0⟩).2
          ⟨10, 10⟩).1.textPosition.x =
        samplePoster.textPosition.x + 5/2) ∧
    (runMoves 1 400 500
        (samplePoster, handleMouseDown samplePoster cInit .text .resize ⟨0, 0⟩)
        ([⟨7, 3⟩] ++ [⟨20, 0⟩])).1.textWidth = samplePoster.textWidth + 5 :=
  move_incremental_resize_baseline samplePoster [⟨7, 3⟩]
    (by norm_num [samplePoster]) (by norm_num [samplePoster])
    (by norm_num [samplePoster]) (by norm_num [samplePoster])

/-- C10 witness: a concrete Move event on the Text layer returns the sample
document with only textPosition replaced. -/
theorem interaction_update_is_frame_preserving_witness :
    (handleMouseMove 1 400 500 samplePoster cDragging ⟨30, 40⟩).1 =
      { samplePoster with
        textPosition := (handleMouseMove 1 400 500 samplePoster cDragging ⟨30, 40⟩).1.textPosition } :=
  interaction_update_is_frame_preserving 1 400 500 samplePoster cDragging ⟨30, 40⟩ .text rfl

/-- C4 counterexample: the highlight set of "For God so loved the world"
does contain "for" — the capitalized token "For" scores +5 for its
uppercase initial (its stop-word status only denies it the length bonus),
which is positive, and the tie-break places it third. -/
theorem selectHighlights_contains_for :
    "for" ∈ selectHighlights "For God so loved the world" := by decide

/-- C4 amended: selectHighlights of "For God so loved the world" returns
the distinct lower-cased words [god, world, for] — at most 3 words, with
"god" present (score 28 = +20 thematic +3 length +5 uppercase) and "so" /
"the" absent (scores 0: "so" is shorter than 3 characters, "the" is an
all-lowercase stop word), but with "for" present (score 5 from its
uppercase initial) rather than excluded. -/
theorem selectHighlights_first_clause :
    selectHighlights "For God so loved the world" = ["god", "world", "for"] ∧
    (selectHighlights "For God so loved the world").Nodup ∧
    (selectHighlights "For God so loved the world").length ≤ 3 ∧
    "god" ∈ selectHighlights "For God so loved the world" ∧
    "so" ∉ selectHighlights "For God so loved the world" ∧
    "the" ∉ selectHighlights "For God so loved the world" ∧
    scoreWord "For" = { word := "for", score := 5 } ∧
    scoreWord "God" = { word := "god", score := 28 } ∧
    scoreWord "so" = { word := "so", score := 0 } ∧
    scoreWord "loved" = { word := "loved", score := 5 } ∧
    scoreWord "the" = { word := "the", score := 0 } ∧
    scoreWord "world" = { word := "world", score := 25 } := by decide

/-- C7: for every text effect, a gradient-valued textColor makes the
computed style transparent-filled with the gradient as background-clip
image, while the accent (verse reference) style falls back to solid white;
and the Outline effect strokes white exactly for pure black `#000000`,
black otherwise. -/
theorem gradient_fill_and_outline_stroke
    (fontFamily : String) (effect : TextEffect) (color : String) :
    (jsStartsWith color "linear-gradient" = true →
      (getTextEffectStyles fontFamily effect color).color = some "transparent" ∧
      (getTextEffectStyles fontFamily effect color).webkitTextFillColor = some "transparent" ∧
      (getTextEffectStyles fontFamily effect color).backgroundImage = some color ∧
      (getTextEffectStyles fontFamily effect color).backgroundClip = some "text" ∧
      (getTextEffectStyles fontFamily effect color).webkitBackgroundClip = some "text" ∧
      (accentStyle fontFamily color).color = some "#ffffff") ∧
    ((getTextEffectStyles fontFamily .OUTLINE color).webkitTextStroke =
        some "1px #ffffff" ↔ color = "#000000") := by
  constructor
  · intro h
    rcases effect <;> simp [getTextEffectStyles, accentStyle, h]
  · by_cases hc : color = "#000000" <;>
      simp [getTextEffectStyles, hc]

/-- C7 witness: a concrete gradient colour under the Neon effect, and the
Outline stroke at pure black. -/
theorem gradient_fill_and_outline_stroke_witness :
    ((getTextEffectStyles "Inter" .NEON "linear-gradient(90deg, #06b6d4, #7c3aed)").color =
        some "transparent" ∧
      (getTextEffectStyles "Inter" .NEON "linear-gradient(90deg, #06b6d4, #7c3aed)").webkitTextFillColor =
        some "transparent" ∧
      (getTextEffectStyles "Inter" .NEON "linear-gradient(90deg, #06b6d4, #7c3aed)").backgroundImage =
        some "linear-gradient(90deg, #06b6d4, #7c3aed)" ∧
      (getTextEffectStyles "Inter" .NEON "linear-gradient(90deg, #06b6d4, #7c3aed)").backgroundClip =
        some "text" ∧
      (getTextEffectStyles "Inter" .NEON "linear-gradient(90deg, #06b6d4, #7c3aed)").webkitBackgroundClip =
        some "text" ∧
      (accentStyle "Inter" "linear-gradient(90deg, #06b6d4, #7c3aed)").color = some "#ffffff") ∧
    (getTextEffectStyles "Inter" .OUTLINE "#000000").webkitTextStroke = some "1px #ffffff" :=
  ⟨(gradient_fill_and_outline_stroke "Inter" .NEON
      "linear-gradient(90deg, #06b6d4, #7c3aed)").1 (by decide),
   (gradient_fill_and_outline_stroke "Inter" .OUTLINE "#000000").2.mpr rfl⟩

/-- C8: translateText returns the input unchanged for target "English"
whatever the provider would answer (no dependence on the external call),
and for any other target it returns the original input whenever the
provider throws, omits the response text, or returns a text that trims to
empty — no exception escapes, the result is always a string. -/
theorem translate_english_identity_and_failure_fallback
    (text target : String) (p : ProviderResponse) (s : String) :
    translateText text "English" p = text ∧
    translateText text target .error = text ∧
    translateText text target (.ok none) = text ∧
    (jsTrim s = "" → translateText text target (.ok (some s)) = text) := by
  refine ⟨by simp [translateText], ?_, ?_, ?_⟩
  · by_cases ht : target = "English" <;> simp [translateText, ht]
  · by_cases ht : target = "English" <;> simp [translateText, ht]
  · intro h
    by_cases ht : target = "English" <;> simp [translateText, ht, h]

/-- C8 witness: concrete English passthrough (with a provider that would
give a different answer), a thrown provider error, and a whitespace-only
response. -/
theorem translate_english_identity_and_failure_fallback_witness :
    translateText "Amazing grace" "English" (.ok (some "ignored")) = "Amazing grace" ∧
    translateText "Amazing grace" "Tamil" .error = "Amazing grace" ∧
    translateText "Amazing grace" "Tamil" (.ok (some "  ")) = "Amazing grace" :=
  ⟨(translate_english_identity_and_failure_fallback
      "Amazing grace" "Tamil" (.ok (some "ignored")) "  ").1,
   (translate_english_identity_and_failure_fallback
      "Amazing grace" "Tamil" (.ok (some "ignored")) "  ").2.1,
   (translate_english_identity_and_failure_fallback
      "Amazing grace" "Tamil" (.ok (some "ignored")) "  ").2.2.2 (by decide)⟩

/-- C9: fetchVerse returns null exactly when the requested fetch yields
null and — unless the requested version already is the default "web" —
the fallback fetch of "web" yields null as well; and when the requested
fetch yields null for a non-"web" version, the result is exactly the
outcome of the single fallback fetch. The function is total: every
outcome, error included, maps to a value. -/
theorem fetchVerse_null_iff_fallback_fails
    (api : String → String → FetchOutcome) (reference version : String) :
    (fetchVerse api reference version = none ↔
      (tryFetch api reference version = none ∧
        (version = "web" ∨ tryFetch api reference "web" = none))) ∧
    (tryFetch api reference version = none → version ≠ "web" →
      fetchVerse api reference version = tryFetch api reference "web") := by
  unfold fetchVerse
  rcases h : tryFetch api reference version with _ | r
  · by_cases hv : version = "web" <;> simp [hv]
  · simp

/-- C9 witness: a network that always fails, requested version "kjv":
both fetches fail and the result is null, equal to the fallback fetch. -/
theorem fetchVerse_null_iff_fallback_fails_witness :
    fetchVerse (fun _ _ => .netError) "John 3:16" "kjv" = none ∧
    fetchVerse (fun _ _ => .netError) "John 3:16" "kjv" =
      tryFetch (fun _ _ => .netError) "John 3:16" "web" :=
  ⟨(fetchVerse_null_iff_fallback_fails (fun _ _ => .netError) "John 3:16" "kjv").1.mpr
      ⟨rfl, Or.inr rfl⟩,
   (fetchVerse_null_iff_fallback_fails (fun _ _ => .netError) "John 3:16" "kjv").2
      rfl (by decide)⟩

end GraceLens
